import Mathlib

/-!
# Verification of the financial-simulator core

A shallow embedding, over exact rationals, of the core functions of
`financial_simulation_lib.py` and the contribution-schedule lookup of
`app.py`: the historical-sequence builder, the monthly-return sampler, the
180-month portfolio state machine with quarterly contribution rebalancing,
the milestone-statistics aggregator, and the IRR cash-flow assembly with
its soft-failure handling.

Modelling conventions:
* Python floats are modelled as `ℚ`; the irrational twelfth-root
  `x ** (1/12)` is abstracted as an explicit function parameter `pw`
  threaded through the sampler and the engine, since no claim depends on
  its numeric value.
* `np.random.normal(0, std)` is modelled as `std * noise i`, where
  `noise : Nat → ℚ` is an arbitrary stream standing for one realization of
  a standard-normal draw sequence; `normal(0, 0)` is exactly `0` in numpy,
  which the model reproduces for every stream.
* `scipy.optimize.newton` is an external library call; it is abstracted as
  an oracle `List (ℚ × ℚ) → Except String ℚ` whose `error` constructor
  stands for both a thrown numerical error and the max-iteration
  `RuntimeError`; `np.nan` as returned by `calculate_irr` is modelled as
  `none`.
* numpy reductions that raise on (or are poisoned by) empty input are
  modelled in `Except String`.
-/

/-- The four-asset allocation dictionary of the source
(keys `SP500`, `NASDAQ`, `TBill`, `HYSA`). -/
structure Mix where
  sp500 : ℚ
  nasdaq : ℚ
  tbill : ℚ
  hysa : ℚ
deriving DecidableEq, Repr

/-- Sum of the four allocation fractions. -/
def sumMix (m : Mix) : ℚ :=
  m.sp500 + m.nasdaq + m.tbill + m.hysa

/-- `current_allocation` of `run_investment_simulation`: each balance as a
fraction of the four-asset total (the source computes it only under the
guard `total_value > 0`). -/
def currentAllocation (sp nq tb hy : ℚ) : Mix :=
  let total := sp + nq + tb + hy
  ⟨sp / total, nq / total, tb / total, hy / total⟩

/-- The `needs_rebalancing` scan of `run_investment_simulation`: some
asset's allocation is strictly more than `threshold` away from target. -/
def needsRebalancing (threshold : ℚ) (alloc target : Mix) : Bool :=
  decide (threshold < |alloc.sp500 - target.sp500|) ||
  decide (threshold < |alloc.nasdaq - target.nasdaq|) ||
  decide (threshold < |alloc.tbill - target.tbill|) ||
  decide (threshold < |alloc.hysa - target.hysa|)

/-- The quarterly rebalancing block of `run_investment_simulation`
(lines 424-472): at an enabled checkpoint (`current_month > 0` and
divisible by 3) with positive four-asset total, if some asset drifts past
the threshold, set each new fraction to
`target + (adjustment / total_adjustment) * 0.5` with
`adjustment = -(allocation - target)`, then divide by their sum when that
sum is positive.  In every other case the current mix `cur` is returned
unchanged. -/
def updateMix (enable : Bool) (threshold : ℚ) (month : Nat)
    (sp nq tb hy : ℚ) (target cur : Mix) : Mix :=
  if enable = true ∧ 0 < month ∧ month % 3 = 0 then
    let total := sp + nq + tb + hy
    if 0 < total then
      let alloc := currentAllocation sp nq tb hy
      if needsRebalancing threshold alloc target then
        let adjSp := -(alloc.sp500 - target.sp500)
        let adjNq := -(alloc.nasdaq - target.nasdaq)
        let adjTb := -(alloc.tbill - target.tbill)
        let adjHy := -(alloc.hysa - target.hysa)
        let totalAdj := max 0 adjSp + max 0 adjNq + max 0 adjTb + max 0 adjHy
        if 0 < totalAdj then
          let nm : Mix := ⟨target.sp500 + adjSp / totalAdj * (1/2),
                           target.nasdaq + adjNq / totalAdj * (1/2),
                           target.tbill + adjTb / totalAdj * (1/2),
                           target.hysa + adjHy / totalAdj * (1/2)⟩
          let totalMix := sumMix nm
          if 0 < totalMix then
            ⟨nm.sp500 / totalMix, nm.nasdaq / totalMix,
             nm.tbill / totalMix, nm.hysa / totalMix⟩
          else nm
        else cur
      else cur
    else cur
  else cur

/-- `calculate_monthly_return(yearly_return, std)`: the average monthly
rate `pw (1 + yearly_return) - 1` (where `pw` abstracts `x ** (1/12)`)
plus twelve independent draws `np.random.normal(0, std)`, modelled as
`std * noise i` over an arbitrary standard-normal stream `noise`. -/
def calculate_monthly_return (pw : ℚ → ℚ) (yearly_return std : ℚ)
    (noise : Nat → ℚ) : List ℚ :=
  (List.range 12).map (fun i => (pw (1 + yearly_return) - 1) + std * noise i)

/-- The configuration of one `run_investment_simulation` trajectory:
the target mix, starting amounts, contribution schedule (as the resolved
function `month → amount`), rebalancing switches, the cash-equivalent APY,
per-asset volatilities, the active historical sequence's three annual
percent-return lists, and the abstract twelfth-root `pw`. -/
structure SimParams where
  target : Mix
  investmentStart : ℚ
  emergencyStart : ℚ
  contribution : Nat → ℚ
  enableRebalancing : Bool
  threshold : ℚ
  hysaApy : ℚ
  stdSP : ℚ
  stdNQ : ℚ
  stdTB : ℚ
  seqSP : List ℚ
  seqNQ : List ℚ
  seqTB : List ℚ
  pw : ℚ → ℚ

/-- One realization of all random draws a trajectory consumes: a
standard-normal stream per volatile asset and year (the source draws one
fresh 12-vector per asset per year), plus the stream for the single
zero-volatility HYSA call. -/
structure Noise where
  nSP : Nat → Nat → ℚ
  nNQ : Nat → Nat → ℚ
  nTB : Nat → Nat → ℚ
  nH : Nat → ℚ

/-- One row of the `investment_breakdown` state: the month index, the five
tracked balances, the benchmark balance, and the active
contribution-allocation mix `current_mix`. -/
structure SimState where
  month : Nat
  sp500 : ℚ
  nasdaq : ℚ
  tbill : ℚ
  hysa : ℚ
  emergency : ℚ
  baseline : ℚ
  mix : Mix
deriving Repr

/-- `HYSA_monthly_returns`: element 0 of
`calculate_monthly_return(hysa_apy, 0)`, computed once per simulation. -/
def cashRate (p : SimParams) (ω : Noise) : ℚ :=
  (calculate_monthly_return p.pw p.hysaApy 0 ω.nH).getD 0 0

/-- The SP500 return sampled for month `m`: entry `m % 12` of the
12-vector drawn for year `m / 12` from that year's annual percent return
(divided by 100, as in the source). -/
def retSP (p : SimParams) (ω : Noise) (m : Nat) : ℚ :=
  (calculate_monthly_return p.pw (p.seqSP.getD (m / 12) 0 / 100) p.stdSP
    (ω.nSP (m / 12))).getD (m % 12) 0

/-- The NASDAQ100 return sampled for month `m` (see `retSP`). -/
def retNQ (p : SimParams) (ω : Noise) (m : Nat) : ℚ :=
  (calculate_monthly_return p.pw (p.seqNQ.getD (m / 12) 0 / 100) p.stdNQ
    (ω.nNQ (m / 12))).getD (m % 12) 0

/-- The 3-month T-bill return sampled for month `m` (see `retSP`). -/
def retTB (p : SimParams) (ω : Noise) (m : Nat) : ℚ :=
  (calculate_monthly_return p.pw (p.seqTB.getD (m / 12) 0 / 100) p.stdTB
    (ω.nTB (m / 12))).getD (m % 12) 0

/-- The body of the monthly loop of `run_investment_simulation` (lines
420-494): possibly rebalance the contribution mix, look up the month's
contribution, split it by the active mix, grow the three volatile balances
by their sampled returns, the HYSA and Baseline balances by the
deterministic cash rate (Baseline receiving the full contribution), and
the emergency fund by the cash rate with no contribution. -/
def simStep (p : SimParams) (ω : Noise) (s : SimState) : SimState :=
  let mix2 := updateMix p.enableRebalancing p.threshold s.month
    s.sp500 s.nasdaq s.tbill s.hysa p.target s.mix
  let c := p.contribution s.month
  { month := s.month + 1
    sp500 := (s.sp500 + c * mix2.sp500) * (1 + retSP p ω s.month)
    nasdaq := (s.nasdaq + c * mix2.nasdaq) * (1 + retNQ p ω s.month)
    tbill := (s.tbill + c * mix2.tbill) * (1 + retTB p ω s.month)
    hysa := (s.hysa + c * mix2.hysa) * (1 + cashRate p ω)
    emergency := s.emergency * (1 + cashRate p ω)
    baseline := (s.baseline + c) * (1 + cashRate p ω)
    mix := mix2 }

/-- Month-0 state of a trajectory: the four investable balances split the
initial investment by the target mix, the emergency fund starts at its own
amount, the Baseline at investment plus emergency, and `current_mix`
starts as a copy of the target. -/
def initState (p : SimParams) : SimState :=
  { month := 0
    sp500 := p.investmentStart * p.target.sp500
    nasdaq := p.investmentStart * p.target.nasdaq
    tbill := p.investmentStart * p.target.tbill
    hysa := p.investmentStart * p.target.hysa
    emergency := p.emergencyStart
    baseline := p.investmentStart + p.emergencyStart
    mix := p.target }

/-- The trajectory of one `(sequence, iteration)` pair of
`run_investment_simulation`: the state after `n` monthly transitions
(the source runs `n` from 0 to 180). -/
def runTrajectory (p : SimParams) (ω : Noise) : Nat → SimState
  | 0 => initState p
  | n + 1 => simStep p ω (runTrajectory p ω n)

/-- A small concrete configuration used to instantiate the engine
theorems: equal quarters target, 10% flat annual returns, zero
volatility, rebalancing on with zero threshold. -/
def demoParams : SimParams :=
  { target := ⟨1/4, 1/4, 1/4, 1/4⟩
    investmentStart := 100
    emergencyStart := 10
    contribution := fun _ => 10
    enableRebalancing := true
    threshold := 0
    hysaApy := 0
    stdSP := 0
    stdNQ := 0
    stdTB := 0
    seqSP := List.replicate 15 10
    seqNQ := List.replicate 15 10
    seqTB := List.replicate 15 10
    pw := fun x => x }

/-- The all-zero noise realization. -/
def zeroNoise : Noise :=
  ⟨fun _ _ => 0, fun _ _ => 0, fun _ _ => 0, fun _ => 0⟩

/-- An alternative noise realization, everywhere 1. -/
def oneNoise : Noise :=
  ⟨fun _ _ => 1, fun _ _ => 1, fun _ _ => 1, fun _ => 1⟩

/-- The `market_returns` table shape: one year-indexed percent-return
association list per asset (a Python dict; `yearsOf` are its keys). -/
structure MarketReturns where
  sp500 : List (Nat × ℚ)
  nasdaq100 : List (Nat × ℚ)
  tbill : List (Nat × ℚ)

/-- The key set of one asset's return dict. -/
def yearsOf (s : List (Nat × ℚ)) : List Nat :=
  s.map Prod.fst

/-- Dict indexing `series[year]`; total with default 0, only used under a
completeness guard that makes the year present. -/
def lookupYear (s : List (Nat × ℚ)) (y : Nat) : ℚ :=
  (((s.find? (fun q => q.1 == y)).map Prod.snd).getD 0)

/-- `sorted(keys)[0]`: the smallest key (0 on an empty dict, where the
source would raise). -/
def minYear (s : List (Nat × ℚ)) : Nat :=
  (yearsOf s).foldr min ((yearsOf s).headD 0)

/-- `sorted(keys)[-1]`: the largest key (0 on an empty dict, where the
source would raise). -/
def maxYear (s : List (Nat × ℚ)) : Nat :=
  (yearsOf s).foldr max 0

/-- `earliest_year` of `get_15_year_sequences`: the minimum of the three
series' first sorted keys. -/
def earliestYear (mr : MarketReturns) : Nat :=
  min (minYear mr.sp500) (min (minYear mr.nasdaq100) (minYear mr.tbill))

/-- `latest_year` of `get_15_year_sequences`: the maximum of the three
series' last sorted keys. -/
def latestYear (mr : MarketReturns) : Nat :=
  max (maxYear mr.sp500) (max (maxYear mr.nasdaq100) (maxYear mr.tbill))

/-- One 15-year window record of `get_15_year_sequences`: per-asset list
of the 15 annual returns when the series covers every year of the window,
`none` (the Python `None` marker) when it has a gap. -/
structure HistSeq where
  start_year : Nat
  end_year : Nat
  sp500 : Option (List ℚ)
  nasdaq100 : Option (List ℚ)
  tbill : Option (List ℚ)
deriving DecidableEq, Repr

/-- The loop body of `get_15_year_sequences` for one `start_year`:
`end_year = start_year + 14`, and each asset's slice over
`range(start_year, end_year + 1)` if every such year is a key, else
`None`. -/
def mkSeq (mr : MarketReturns) (start : Nat) : HistSeq :=
  let e := start + 14
  let yrs := (List.range 15).map (fun k => start + k)
  { start_year := start
    end_year := e
    sp500 := if yrs.all (fun y => (yearsOf mr.sp500).contains y) then
        some (yrs.map (lookupYear mr.sp500)) else none
    nasdaq100 := if yrs.all (fun y => (yearsOf mr.nasdaq100).contains y) then
        some (yrs.map (lookupYear mr.nasdaq100)) else none
    tbill := if yrs.all (fun y => (yearsOf mr.tbill).contains y) then
        some (yrs.map (lookupYear mr.tbill)) else none }

/-- `get_15_year_sequences(market_returns)`: one window per `start_year`
in Python `range(earliest_year, latest_year - 14)` — the upper bound is
excluded, as `range` always excludes its stop value. -/
def get_15_year_sequences (mr : MarketReturns) : List HistSeq :=
  (List.range (latestYear mr - 14 - earliestYear mr)).map
    (fun i => mkSeq mr (earliestYear mr + i))

/-- A small return table with sixteen consecutive years of data (years
1 to 16) in all three series, so the complete 15-year windows are exactly
those starting at years 1 and 2. -/
def tinySeries : MarketReturns :=
  { sp500 := (List.range 16).map (fun i => (i + 1, (0 : ℚ)))
    nasdaq100 := (List.range 16).map (fun i => (i + 1, (0 : ℚ)))
    tbill := (List.range 16).map (fun i => (i + 1, (0 : ℚ)))
  }

/-- One `result_dict` of a finished simulation run: the month-index list
and the six parallel balance series. -/
structure RunDict where
  monthIndex : List Nat
  sp500 : List ℚ
  nasdaq100 : List ℚ
  tbill : List ℚ
  hysa : List ℚ
  emergencyFund : List ℚ
  baseline : List ℚ
deriving Repr

/-- `np.percentile(a, q)` with the default linear interpolation, exact
over `ℚ`: on the ascending sort `s` of `a`, the value at fractional rank
`h = q/100 * (n-1)`.  numpy raises `IndexError` on an empty array, which
is the `error` case. -/
def percentileE (q : ℚ) (l : List ℚ) : Except String ℚ :=
  if l.isEmpty then
    Except.error "IndexError: percentile of an empty array"
  else
    let s := l.mergeSort (fun a b => decide (a ≤ b))
    let n := s.length
    let h := q / 100 * ((n : ℚ) - 1)
    let i := (Rat.floor h).toNat
    let lo := s.getD i 0
    let hi := s.getD (min (i + 1) (n - 1)) 0
    Except.ok (lo + (h - (i : ℚ)) * (hi - lo))

/-- `np.mean(a)`: arithmetic mean.  On an empty array numpy produces
`nan` ("Mean of empty slice"); `ℚ` has no `nan`, so that poisoned result
is the `error` case. -/
def meanE (l : List ℚ) : Except String ℚ :=
  if l.isEmpty then
    Except.error "Mean of empty slice"
  else
    Except.ok (l.sum / (l.length : ℚ))

/-- The fields of the dict returned by `calculate_milestone_statistics`. -/
structure MilestoneStats where
  p25 : ℚ
  p50 : ℚ
  p75 : ℚ
  avg_baseline : ℚ
  beat_baseline_pct : ℚ
  median_gain : ℚ
deriving Repr

/-- The five-balance total of run `r` at month index `mi`. -/
def totalAt (r : RunDict) (mi : Nat) : ℚ :=
  r.sp500.getD mi 0 + r.nasdaq100.getD mi 0 + r.tbill.getD mi 0 +
    r.hysa.getD mi 0 + r.emergencyFund.getD mi 0

/-- `calculate_milestone_statistics(simulation_results, year)`: over the
runs long enough to reach month `year * 12`, the 25/50/75 percentiles of
the five-balance totals, the mean paired baseline, the percentage of runs
beating their own baseline (a division by the number of selected runs),
and the median gain.  The numpy failures on an empty selection surface in
`Except`, in the evaluation order of the source's dict literal (the
percentile raises first). -/
def calculate_milestone_statistics (runs : List RunDict) (year : Nat) :
    Except String MilestoneStats := do
  let mi := year * 12
  let sel := runs.filter (fun r => mi < r.monthIndex.length)
  let vals := sel.map (fun r => totalAt r mi)
  let bases := sel.map (fun r => r.baseline.getD mi 0)
  let p25 ← percentileE 25 vals
  let p50 ← percentileE 50 vals
  let p75 ← percentileE 75 vals
  let avgB ← meanE bases
  let beat ←
    if vals.length = 0 then
      Except.error "ZeroDivisionError: division by zero"
    else
      Except.ok ((((vals.zip bases).countP (fun q => decide (q.2 < q.1))) : ℚ)
        / (vals.length : ℚ) * 100)
  let p50g ← percentileE 50 vals
  let avgBg ← meanE bases
  Except.ok ⟨p25, p50, p75, avgB, beat, p50g - avgBg⟩

/-- `calculate_irr(cash_flows, times)`: hand the flow/time pairs to the
Newton-Raphson solver (`scipy.optimize.newton`, start 0.05, maxiter 100,
abstracted as the oracle `newton`); a thrown numerical error or the
iteration-limit `RuntimeError` (the oracle's `error` case) is caught and
becomes the `np.nan` sentinel, modelled as `none`. -/
def calculate_irr (newton : List (ℚ × ℚ) → Except String ℚ)
    (flows : List (ℚ × ℚ)) : Option ℚ :=
  match newton flows with
  | Except.ok x => some x
  | Except.error _ => none

/-- The portfolio cash-flow list built by `calculate_all_irrs` for one
run: minus the initial five-balance total at time 0, minus the month-`k`
contribution at time `k/12` for `k = 1 .. total_months` (the source looks
the amount up at `month_idx - 1`), and the final five-balance total at
time 15. -/
def portfolioCashFlows (contribution : Nat → ℚ) (r : RunDict) :
    List (ℚ × ℚ) :=
  let n := r.monthIndex.length - 1
  (-(totalAt r 0), (0 : ℚ)) ::
    ((List.range n).map (fun i => (-(contribution i), ((i : ℚ) + 1) / 12)) ++
      [(r.sp500.getLastD 0 + r.nasdaq100.getLastD 0 + r.tbill.getLastD 0 +
          r.hysa.getLastD 0 + r.emergencyFund.getLastD 0, (15 : ℚ))])

/-- The baseline cash-flow list built by `calculate_all_irrs` for one
run: minus `Baseline[0]` at time 0, then for each month `k` minus the
implied contribution `Baseline[k] / (1 + rate) - Baseline[k-1]` at time
`k/12`, and the last baseline balance at time 15. -/
def baselineCashFlows (r : RunDict) (rate : ℚ) : List (ℚ × ℚ) :=
  let n := r.monthIndex.length - 1
  (-(r.baseline.getD 0 0), (0 : ℚ)) ::
    ((List.range n).map (fun i =>
        (-(r.baseline.getD (i + 1) 0 / (1 + rate) - r.baseline.getD i 0),
          ((i : ℚ) + 1) / 12)) ++
      [(r.baseline.getLastD 0, (15 : ℚ))])

/-- The two arrays returned by `calculate_all_irrs`. -/
structure IRRResults where
  irr_returns : List ℚ
  baseline_irr_returns : List ℚ
deriving Repr

/-- The run loop of `calculate_all_irrs` for one of the two flow kinds:
append `irr * 100` when `calculate_irr` produced a number, skip the run
when it produced the `nan` sentinel. -/
def irrLoop (newton : List (ℚ × ℚ) → Except String ℚ)
    (flowsOf : RunDict → List (ℚ × ℚ)) (runs : List RunDict)
    (acc : List ℚ) : List ℚ :=
  match runs with
  | [] => acc
  | r :: rest =>
    match calculate_irr newton (flowsOf r) with
    | some x => irrLoop newton flowsOf rest (acc ++ [x * 100])
    | none => irrLoop newton flowsOf rest acc

/-- `calculate_all_irrs(simulation_results, contribution_function,
HYSA_monthly_returns)`: per run, the portfolio IRR over
`portfolioCashFlows` and the baseline IRR over `baselineCashFlows`,
each appended as a percentage only when the solver converged. -/
def calculate_all_irrs (newton : List (ℚ × ℚ) → Except String ℚ)
    (contribution : Nat → ℚ) (rate : ℚ) (runs : List RunDict) : IRRResults :=
  { irr_returns := irrLoop newton (portfolioCashFlows contribution) runs []
    baseline_irr_returns := irrLoop newton (fun r => baselineCashFlows r rate) runs [] }

/-- One entry of the `contribution_periods` list of `app.py`. -/
structure Period where
  start_month : Nat
  contribution : ℚ
deriving DecidableEq, Repr

/-- The scan of `get_contribution_for_month`: walk the periods in order,
remembering the amount of every period whose `start_month ≤ month`, and
stop at the first period that starts later (the `break`). -/
def contribScan (month : Nat) (acc : ℚ) : List Period → ℚ
  | [] => acc
  | q :: rest =>
    if q.start_month ≤ month then contribScan month q.contribution rest
    else acc

/-- `get_contribution_for_month(month, contribution_periods)` of
`app.py`: start from the first period's amount and scan (the source
indexes `contribution_periods[0]`, so an empty list would raise; the
default 0 seed is unreachable under the nonemptiness the claims assume). -/
def get_contribution_for_month (month : Nat) (periods : List Period) : ℚ :=
  contribScan month ((periods.headD ⟨0, 0⟩).contribution) periods

/-- The contribution-allocation mix in force during month `m`: the result
of the (possibly non-triggering) quarterly rebalancing check applied to
the month-`m` balances — the target mix, or the rebalanced mix if the
check triggered earlier or this month. -/
def activeMix (p : SimParams) (ω : Noise) (m : Nat) : Mix :=
  updateMix p.enableRebalancing p.threshold m
    (runTrajectory p ω m).sp500 (runTrajectory p ω m).nasdaq
    (runTrajectory p ω m).tbill (runTrajectory p ω m).hysa
    p.target (runTrajectory p ω m).mix

/-- A tiny two-month result dict used to instantiate the cash-flow
theorems at concrete values. -/
def demoRun : RunDict :=
  { monthIndex := [0, 1, 2]
    sp500 := [50, 51, 52]
    nasdaq100 := [20, 21, 22]
    tbill := [10, 11, 12]
    hysa := [5, 6, 7]
    emergencyFund := [4, 4, 4]
    baseline := [100, 105, 110] }

/-- A Newton oracle that never converges: every call ends in the
iteration-limit `RuntimeError`. -/
def errNewton : List (ℚ × ℚ) → Except String ℚ :=
  fun _ => Except.error "RuntimeError: Failed to converge after 100 iterations"

/-- A Newton oracle that always converges to 10%. -/
def okNewton : List (ℚ × ℚ) → Except String ℚ :=
  fun _ => Except.ok (1 / 10)

/-- A three-period contribution schedule used to instantiate the lookup
theorem at concrete values. -/
def demoPeriods : List Period :=
  [⟨0, 100⟩, ⟨12, 200⟩, ⟨24, 50⟩]

/-- The month counter of the trajectory equals the step count. -/
theorem runTrajectory_month (p : SimParams) (ω : Noise) :
    ∀ n, (runTrajectory p ω n).month = n := by
  intro n
  induction n with
  | zero => rfl
  | succ n ih => simp [runTrajectory, simStep, ih]

/-- With standard deviation 0 the sampler ignores its noise stream: all
twelve draws are exactly the average monthly rate. -/
theorem calculate_monthly_return_zero_std (pw : ℚ → ℚ) (y : ℚ) (noise : Nat → ℚ) :
    calculate_monthly_return pw y 0 noise = List.replicate 12 (pw (1 + y) - 1) := by
  simp [calculate_monthly_return]

/-- Indexing a replicated list within bounds yields the repeated value. -/
theorem replicate_getD (n k : Nat) (a : ℚ) (h : k < n) :
    (List.replicate n a).getD k 0 = a := by
  simp [List.getD_eq_getElem?_getD, List.getElem?_replicate, h]

/-- The cash-equivalent monthly rate is the deterministic average: its
sampler call always uses standard deviation 0. -/
theorem cashRate_eq (p : SimParams) (ω : Noise) :
    cashRate p ω = p.pw (1 + p.hysaApy) - 1 := by
  rw [cashRate, calculate_monthly_return_zero_std, replicate_getD]
  omega

/-- With zero SP500 volatility the sampled SP500 return is the
deterministic average for that month's year. -/
theorem retSP_zero_std (p : SimParams) (ω : Noise) (m : Nat) (h : p.stdSP = 0) :
    retSP p ω m = p.pw (1 + p.seqSP.getD (m / 12) 0 / 100) - 1 := by
  rw [retSP, h, calculate_monthly_return_zero_std, replicate_getD]
  exact Nat.mod_lt _ (by norm_num)

/-- With zero NASDAQ volatility the sampled NASDAQ return is the
deterministic average for that month's year. -/
theorem retNQ_zero_std (p : SimParams) (ω : Noise) (m : Nat) (h : p.stdNQ = 0) :
    retNQ p ω m = p.pw (1 + p.seqNQ.getD (m / 12) 0 / 100) - 1 := by
  rw [retNQ, h, calculate_monthly_return_zero_std, replicate_getD]
  exact Nat.mod_lt _ (by norm_num)

/-- With zero T-bill volatility the sampled T-bill return is the
deterministic average for that month's year. -/
theorem retTB_zero_std (p : SimParams) (ω : Noise) (m : Nat) (h : p.stdTB = 0) :
    retTB p ω m = p.pw (1 + p.seqTB.getD (m / 12) 0 / 100) - 1 := by
  rw [retTB, h, calculate_monthly_return_zero_std, replicate_getD]
  exact Nat.mod_lt _ (by norm_num)

/-- One rebalancing evaluation preserves a mix summing to 1, provided the
target sums to 1. -/
theorem updateMix_sum (e : Bool) (thr : ℚ) (month : Nat) (sp nq tb hy : ℚ)
    (target cur : Mix) (h1 : sumMix target = 1) (h2 : sumMix cur = 1) :
    sumMix (updateMix e thr month sp nq tb hy target cur) = 1 := by
  obtain ⟨t1, t2, t3, t4⟩ := target
  simp only [sumMix] at h1
  simp only [updateMix, currentAllocation]
  split_ifs with hc hpos hneed hadj htm
  · -- triggered and renormalized: the four quotients sum to S / S = 1
    simp only [sumMix] at htm ⊢
    set total := sp + nq + tb + hy with htotal
    set a1 := -(sp / total - t1) with ha1
    set a2 := -(nq / total - t2) with ha2
    set a3 := -(tb / total - t3) with ha3
    set a4 := -(hy / total - t4) with ha4
    set T := 0 ⊔ a1 + 0 ⊔ a2 + 0 ⊔ a3 + 0 ⊔ a4 with hT
    set n1 := t1 + a1 / T * (1 / 2) with hn1
    set n2 := t2 + a2 / T * (1 / 2) with hn2
    set n3 := t3 + a3 / T * (1 / 2) with hn3
    set n4 := t4 + a4 / T * (1 / 2) with hn4
    have hSne : n1 + n2 + n3 + n4 ≠ 0 := ne_of_gt htm
    have hco : n1 / (n1 + n2 + n3 + n4) + n2 / (n1 + n2 + n3 + n4) +
        n3 / (n1 + n2 + n3 + n4) + n4 / (n1 + n2 + n3 + n4) =
        (n1 + n2 + n3 + n4) / (n1 + n2 + n3 + n4) := by ring
    rw [hco, div_self hSne]
  · -- triggered but the positivity guard on the new sum failed: that sum
    -- is in fact exactly 1, because the raw adjustments cancel
    simp only [sumMix]
    set total := sp + nq + tb + hy with htotal
    set a1 := -(sp / total - t1) with ha1
    set a2 := -(nq / total - t2) with ha2
    set a3 := -(tb / total - t3) with ha3
    set a4 := -(hy / total - t4) with ha4
    set T := 0 ⊔ a1 + 0 ⊔ a2 + 0 ⊔ a3 + 0 ⊔ a4 with hT
    have htot : total ≠ 0 := ne_of_gt hpos
    have h5 : sp / total + nq / total + tb / total + hy / total = 1 := by
      rw [div_add_div_same, div_add_div_same, div_add_div_same, ← htotal, div_self htot]
    have hsuma : a1 + a2 + a3 + a4 = 0 := by
      rw [ha1, ha2, ha3, ha4]
      have hre : -(sp / total - t1) + -(nq / total - t2) + -(tb / total - t3) +
          -(hy / total - t4) =
          (t1 + t2 + t3 + t4) - (sp / total + nq / total + tb / total + hy / total) := by
        ring
      rw [hre, h5, h1]
      ring
    have hco : t1 + a1 / T * (1 / 2) + (t2 + a2 / T * (1 / 2)) + (t3 + a3 / T * (1 / 2)) +
        (t4 + a4 / T * (1 / 2)) =
        t1 + t2 + t3 + t4 + (a1 + a2 + a3 + a4) / T * (1 / 2) := by ring
    rw [hco, hsuma, zero_div, zero_mul, add_zero, h1]
  · exact h2
  · exact h2
  · exact h2
  · exact h2

/-- The scan returns the seed when every period starts after the month. -/
theorem contribScan_all_gt (month : Nat) (acc : ℚ) (ps : List Period)
    (h : ∀ q ∈ ps, month < q.start_month) :
    contribScan month acc ps = acc := by
  cases ps with
  | nil => rfl
  | cons q rest =>
    have hq : ¬ q.start_month ≤ month := Nat.not_le.2 (h q (List.mem_cons_self q rest))
    simp [contribScan, hq]

/-- On a strictly sorted schedule the scan computes the amount of the
last period starting no later than the month, defaulting to the seed. -/
theorem contribScan_eq_filter (month : Nat) (ps : List Period)
    (hsort : ps.Pairwise (fun a b => a.start_month < b.start_month)) :
    ∀ acc, contribScan month acc ps =
      ((ps.filter (fun q => q.start_month ≤ month)).map (fun q => q.contribution)).getLastD acc := by
  induction ps with
  | nil => intro acc; rfl
  | cons q rest ih =>
    intro acc
    rcases List.pairwise_cons.1 hsort with ⟨hq, hrest⟩
    by_cases hle : q.start_month ≤ month
    · have hf : (q :: rest).filter (fun q => decide (q.start_month ≤ month)) =
          q :: rest.filter (fun q => decide (q.start_month ≤ month)) := by
        simp [List.filter_cons, hle]
      rw [contribScan, if_pos hle, ih hrest q.contribution, hf, List.map_cons,
        List.getLastD_cons]
    · have hnil : rest.filter (fun q => decide (q.start_month ≤ month)) = [] := by
        rw [List.filter_eq_nil_iff]
        intro r hr
        have hmo : month < r.start_month := Nat.lt_trans (Nat.not_le.1 hle) (hq r hr)
        simp [Nat.not_le.2 hmo]
      have hf : (q :: rest).filter (fun q => decide (q.start_month ≤ month)) = [] := by
        simp [List.filter_cons, hle, hnil]
      rw [contribScan, if_neg hle, hf]
      rfl

/-- On a strictly sorted schedule a lookup at a period's exact start
month yields that period's amount, whatever the seed. -/
theorem contribScan_exact (month : Nat) (ps : List Period)
    (hsort : ps.Pairwise (fun a b => a.start_month < b.start_month)) :
    ∀ acc, ∀ q ∈ ps, q.start_month = month → contribScan month acc ps = q.contribution := by
  induction ps with
  | nil => intro acc q hq; exact absurd hq (List.not_mem_nil q)
  | cons r rest ih =>
    intro acc q hq hqm
    rcases List.pairwise_cons.1 hsort with ⟨hr, hrest⟩
    rcases List.mem_cons.1 hq with rfl | hmem
    · rw [contribScan, if_pos (Nat.le_of_eq hqm)]
      exact contribScan_all_gt month q.contribution rest
        (fun r' hr' => hqm ▸ hr r' hr')
    · have hlt : r.start_month < month := hqm ▸ hr q hmem
      rw [contribScan, if_pos (Nat.le_of_lt hlt)]
      exact ih hrest r.contribution q hmem hqm

/-- The middle entries of the baseline cash-flow list, by index. -/
theorem baselineFlows_entry (r : RunDict) (rate : ℚ) (j : Nat)
    (hj : j < r.monthIndex.length - 1) :
    (baselineCashFlows r rate).getD (j + 1) (0, 0) =
      (-(r.baseline.getD (j + 1) 0 / (1 + rate) - r.baseline.getD j 0), ((j : ℚ) + 1) / 12) := by
  rw [baselineCashFlows]
  rw [List.getD_cons_succ]
  rw [List.getD_append]
  · rw [List.getD_eq_getElem _ _ (by simpa using hj)]
    simp
  · simpa using hj

/-- The append-accumulator loop of `calculate_all_irrs` is a
`filterMap`: converged runs contribute their percentage IRR in order,
non-converged runs are skipped. -/
theorem irrLoop_eq_filterMap (newton : List (ℚ × ℚ) → Except String ℚ)
    (flowsOf : RunDict → List (ℚ × ℚ)) :
    ∀ (runs : List RunDict) (acc : List ℚ),
      irrLoop newton flowsOf runs acc =
        acc ++ runs.filterMap
          (fun r => (calculate_irr newton (flowsOf r)).map (fun x => x * 100)) := by
  intro runs
  induction runs with
  | nil => intro acc; simp [irrLoop]
  | cons r rest ih =>
    intro acc
    rw [irrLoop]
    cases h : calculate_irr newton (flowsOf r) with
    | some x => simp [ih, h, List.filterMap_cons]
    | none => simp [ih, h, List.filterMap_cons]

/-- Away from a positive multiple of 3 the step leaves the active mix
untouched. -/
theorem mix_unchanged_off_checkpoint (p : SimParams) (ω : Noise) (m : Nat)
    (h : ¬(0 < m ∧ m % 3 = 0)) :
    (runTrajectory p ω (m + 1)).mix = (runTrajectory p ω m).mix := by
  show (simStep p ω (runTrajectory p ω m)).mix = _
  simp only [simStep]
  rw [updateMix, if_neg]
  rw [runTrajectory_month]
  exact fun hco => h hco.2

/-- If a rebalancing evaluation changed the mix, every gate on the way to
the adjustment branch was open. -/
theorem updateMix_changed_conditions (e : Bool) (thr : ℚ) (m : Nat)
    (sp nq tb hy : ℚ) (target cur : Mix)
    (h : updateMix e thr m sp nq tb hy target cur ≠ cur) :
    e = true ∧ 0 < m ∧ m % 3 = 0 ∧ 0 < sp + nq + tb + hy ∧
      needsRebalancing thr (currentAllocation sp nq tb hy) target = true := by
  by_contra hcon
  apply h
  simp only [updateMix]
  split_ifs with hc hpos hneed hadj htm
  · exact absurd ⟨hc.1, hc.2.1, hc.2.2, hpos, hneed⟩ hcon
  · exact absurd ⟨hc.1, hc.2.1, hc.2.2, hpos, hneed⟩ hcon
  · rfl
  · rfl
  · rfl
  · rfl

/-- With threshold 0 the drift scan fires exactly when the computed
allocation is not literally the target mix. -/
theorem needsRebalancing_zero_threshold (sp nq tb hy : ℚ) (target : Mix) :
    needsRebalancing 0 (currentAllocation sp nq tb hy) target = true ↔
      currentAllocation sp nq tb hy ≠ target := by
  obtain ⟨t1, t2, t3, t4⟩ := target
  simp only [needsRebalancing, currentAllocation, Bool.or_eq_true, decide_eq_true_eq,
    abs_pos, sub_ne_zero, ne_eq, Mix.mk.injEq]
  tauto

/-- With all three volatilities at zero the trajectory is independent of
the noise realization. -/
theorem runTrajectory_noise_indep (p : SimParams) (ω ω2 : Noise)
    (h1 : p.stdSP = 0) (h2 : p.stdNQ = 0) (h3 : p.stdTB = 0) :
    ∀ m, runTrajectory p ω m = runTrajectory p ω2 m := by
  intro m
  induction m with
  | zero => rfl
  | succ n ih =>
    show simStep p ω (runTrajectory p ω n) = simStep p ω2 (runTrajectory p ω2 n)
    rw [ih]
    unfold simStep
    rw [retSP_zero_std p ω _ h1, retSP_zero_std p ω2 _ h1,
        retNQ_zero_std p ω _ h2, retNQ_zero_std p ω2 _ h2,
        retTB_zero_std p ω _ h3, retTB_zero_std p ω2 _ h3,
        cashRate_eq p ω, cashRate_eq p ω2]

/-- The active mix of every month of a run sums to 1 whenever the target
does. -/
theorem runTrajectory_mix_sum (p : SimParams) (ω : Noise)
    (h : sumMix p.target = 1) :
    ∀ m, sumMix (runTrajectory p ω m).mix = 1 := by
  intro m
  induction m with
  | zero => exact h
  | succ n ih =>
    show sumMix (simStep p ω (runTrajectory p ω n)).mix = 1
    exact updateMix_sum _ _ _ _ _ _ _ _ _ h ih

/-- Claim C1 (evaluated at the failing input): `get_15_year_sequences`
does NOT produce a window for every start year up to `latestYear - 14`
inclusive.  On `tinySeries` (all three series covering years 1..16,
so `latestYear - 14 = 2`) the produced start years are exactly `[1]`:
the window starting at year 2 is absent even though `mkSeq` at 2 would
be complete in all three assets; the Python `range(earliest_year,
latest_year - 14)` excludes its stop value.  Every produced window does
satisfy `end_year = start_year + 14`. -/
theorem get_15_year_sequences_drops_last_window :
    earliestYear tinySeries = 1
  ∧ latestYear tinySeries = 16
  ∧ (get_15_year_sequences tinySeries).map (fun s => s.start_year) = [1]
  ∧ (get_15_year_sequences tinySeries).countP (fun s => decide (s.start_year = 2)) = 0
  ∧ (get_15_year_sequences tinySeries).all
      (fun s => s.end_year == s.start_year + 14) = true
  ∧ (mkSeq tinySeries 2).sp500.isSome = true
  ∧ (mkSeq tinySeries 2).nasdaq100.isSome = true
  ∧ (mkSeq tinySeries 2).tbill.isSome = true := by decide

/-- Claim C2 (evaluated at the failing input): an empty
`SimulationResultSet` reaching `calculate_milestone_statistics` does not
hit an explicit no-data guard — the failure that surfaces is the numpy
`IndexError` raised inside the first `np.percentile` call on the empty
milestone array (with the division by the zero run count further down
the same dict literal). -/
theorem milestone_statistics_empty_fails_inside_percentile (year : Nat) :
    calculate_milestone_statistics [] year =
      Except.error "IndexError: percentile of an empty array" := rfl

/-- Claim C3: for every month `m` in 0..179 of every run, the three
volatile balances become `(prev + contribution * activeMixFraction) *
(1 + that month's sampled return)`, the cash-equivalent balance the same
with the deterministic cash monthly rate, the Baseline balance grows at
the cash rate from the full (not mix-split) contribution, and the
emergency fund compounds at the cash rate with zero contribution. -/
theorem engine_monthly_transition (p : SimParams) (ω : Noise) (m : Fin 180) :
    (runTrajectory p ω (m.val + 1)).sp500 =
      ((runTrajectory p ω m.val).sp500 + p.contribution m.val * (activeMix p ω m.val).sp500) *
        (1 + retSP p ω m.val)
  ∧ (runTrajectory p ω (m.val + 1)).nasdaq =
      ((runTrajectory p ω m.val).nasdaq + p.contribution m.val * (activeMix p ω m.val).nasdaq) *
        (1 + retNQ p ω m.val)
  ∧ (runTrajectory p ω (m.val + 1)).tbill =
      ((runTrajectory p ω m.val).tbill + p.contribution m.val * (activeMix p ω m.val).tbill) *
        (1 + retTB p ω m.val)
  ∧ (runTrajectory p ω (m.val + 1)).hysa =
      ((runTrajectory p ω m.val).hysa + p.contribution m.val * (activeMix p ω m.val).hysa) *
        (1 + cashRate p ω)
  ∧ (runTrajectory p ω (m.val + 1)).baseline =
      ((runTrajectory p ω m.val).baseline + p.contribution m.val) * (1 + cashRate p ω)
  ∧ (runTrajectory p ω (m.val + 1)).emergency =
      (runTrajectory p ω m.val).emergency * (1 + cashRate p ω)
  ∧ (runTrajectory p ω (m.val + 1)).mix = activeMix p ω m.val := by
  have hm := runTrajectory_month p ω m.val
  refine ⟨?_, ?_, ?_, ?_, ?_, ?_, ?_⟩ <;>
    simp [runTrajectory, simStep, activeMix, hm]

/-- Claim C4: the engine's active contribution-allocation mix never
changes at a month that is not a positive multiple of 3; a rebalancing
evaluation changes the mix only when enabled, at a positive quarterly
month, with a positive four-asset total and some asset drifted strictly
past the threshold; and with threshold 0 the drift check triggers
exactly when the computed allocation differs at all from the target. -/
theorem rebalancing_trigger_conditions :
    (∀ (p : SimParams) (ω : Noise) (m : Nat), ¬(0 < m ∧ m % 3 = 0) →
        (runTrajectory p ω (m + 1)).mix = (runTrajectory p ω m).mix)
  ∧ (∀ (e : Bool) (thr : ℚ) (m : Nat) (sp nq tb hy : ℚ) (target cur : Mix),
        updateMix e thr m sp nq tb hy target cur ≠ cur →
        e = true ∧ 0 < m ∧ m % 3 = 0 ∧ 0 < sp + nq + tb + hy ∧
          needsRebalancing thr (currentAllocation sp nq tb hy) target = true)
  ∧ (∀ (sp nq tb hy : ℚ) (target : Mix), 0 < sp + nq + tb + hy →
        (needsRebalancing 0 (currentAllocation sp nq tb hy) target = true ↔
          currentAllocation sp nq tb hy ≠ target)) :=
  ⟨fun p ω m h => mix_unchanged_off_checkpoint p ω m h,
   fun e thr m sp nq tb hy target cur h =>
     updateMix_changed_conditions e thr m sp nq tb hy target cur h,
   fun sp nq tb hy target _ => needsRebalancing_zero_threshold sp nq tb hy target⟩

/-- Concrete instantiation of `rebalancing_trigger_conditions`: month 4
is not a checkpoint so the demo run's mix is unchanged there; the
100/0/0/0 balances against an equal-quarters target open every gate; and
at threshold 0 triggering is equivalent to allocation-target mismatch. -/
theorem rebalancing_trigger_conditions_witness :
    (runTrajectory demoParams zeroNoise 5).mix = (runTrajectory demoParams zeroNoise 4).mix
  ∧ (true = true ∧ 0 < 3 ∧ 3 % 3 = 0 ∧ (0 : ℚ) < 100 + 0 + 0 + 0 ∧
      needsRebalancing (1/20) (currentAllocation 100 0 0 0) ⟨1/4, 1/4, 1/4, 1/4⟩ = true)
  ∧ (needsRebalancing 0 (currentAllocation 100 0 0 0) ⟨1/4, 1/4, 1/4, 1/4⟩ = true ↔
      currentAllocation 100 0 0 0 ≠ ⟨1/4, 1/4, 1/4, 1/4⟩) := by
  refine ⟨?_, ?_, ?_⟩
  · exact rebalancing_trigger_conditions.1 demoParams zeroNoise 4 (by decide)
  · exact rebalancing_trigger_conditions.2.1 true (1/20) 3 100 0 0 0
      ⟨1/4, 1/4, 1/4, 1/4⟩ ⟨1/4, 1/4, 1/4, 1/4⟩
      (by simp only [updateMix, currentAllocation, needsRebalancing, sumMix]
          norm_num [abs_le, Mix.mk.injEq])
  · exact rebalancing_trigger_conditions.2.2 100 0 0 0 ⟨1/4, 1/4, 1/4, 1/4⟩ (by norm_num)

/-- Claim C5: when the target mix sums to 1, every rebalancing
evaluation (triggered or not) yields a mix summing to exactly 1, and
consequently the active mix of every month of every run sums to 1. -/
theorem rebalanced_mix_sums_to_one :
    (∀ (e : Bool) (thr : ℚ) (m : Nat) (sp nq tb hy : ℚ) (target cur : Mix),
        sumMix target = 1 → sumMix cur = 1 →
        sumMix (updateMix e thr m sp nq tb hy target cur) = 1)
  ∧ (∀ (p : SimParams) (ω : Noise), sumMix p.target = 1 →
        ∀ m, sumMix (runTrajectory p ω m).mix = 1) :=
  ⟨fun e thr m sp nq tb hy target cur h1 h2 =>
     updateMix_sum e thr m sp nq tb hy target cur h1 h2,
   fun p ω h m => runTrajectory_mix_sum p ω h m⟩

/-- Concrete instantiation of `rebalanced_mix_sums_to_one` at a
triggered update and at month 7 of the demo run. -/
theorem rebalanced_mix_sums_to_one_witness :
    sumMix (updateMix true 0 3 100 0 0 0 ⟨1/4, 1/4, 1/4, 1/4⟩ ⟨1/4, 1/4, 1/4, 1/4⟩) = 1
  ∧ sumMix (runTrajectory demoParams zeroNoise 7).mix = 1 :=
  ⟨rebalanced_mix_sums_to_one.1 true 0 3 100 0 0 0 ⟨1/4, 1/4, 1/4, 1/4⟩ ⟨1/4, 1/4, 1/4, 1/4⟩
     (by norm_num [sumMix]) (by norm_num [sumMix]),
   rebalanced_mix_sums_to_one.2 demoParams zeroNoise (by norm_num [demoParams, sumMix]) 7⟩

/-- Claim C6: with standard deviation 0 the sampler returns twelve
copies of the deterministic average monthly rate, independent of the
noise realization; consequently, with all three volatilities 0, two runs
with identical inputs but different randomness produce identical
trajectories. -/
theorem zero_volatility_determinism :
    (∀ (pw : ℚ → ℚ) (y : ℚ) (noise noise2 : Nat → ℚ),
        calculate_monthly_return pw y 0 noise = List.replicate 12 (pw (1 + y) - 1)
      ∧ calculate_monthly_return pw y 0 noise = calculate_monthly_return pw y 0 noise2)
  ∧ (∀ (p : SimParams) (ω ω2 : Noise),
        p.stdSP = 0 → p.stdNQ = 0 → p.stdTB = 0 →
        ∀ m, runTrajectory p ω m = runTrajectory p ω2 m) :=
  ⟨fun pw y noise noise2 =>
     ⟨calculate_monthly_return_zero_std pw y noise,
      (calculate_monthly_return_zero_std pw y noise).trans
        (calculate_monthly_return_zero_std pw y noise2).symm⟩,
   fun p ω ω2 h1 h2 h3 m => runTrajectory_noise_indep p ω ω2 h1 h2 h3 m⟩

/-- Concrete instantiation of `zero_volatility_determinism`: the sampler
at 10% annual return and zero volatility, and the zero-volatility demo
run under two different noise realizations at month 3. -/
theorem zero_volatility_determinism_witness :
    calculate_monthly_return (fun x => x) (1/10) 0 (fun i => (i : ℚ)) =
      List.replicate 12 ((1 : ℚ) + 1/10 - 1)
  ∧ runTrajectory demoParams zeroNoise 3 = runTrajectory demoParams oneNoise 3 :=
  ⟨(zero_volatility_determinism.1 (fun x => x) (1/10) (fun i => (i : ℚ)) (fun _ => 0)).1,
   zero_volatility_determinism.2 demoParams zeroNoise oneNoise rfl rfl rfl 3⟩

/-- Claim C7: for every run, the baseline IRR cash flow at month `k`
(1 ≤ k ≤ total months) is the implied contribution
`Baseline[k] / (1 + cashRate) - Baseline[k-1]` (negated, at time
`k / 12`), and that amount is exactly the `c` solving
`Baseline[k] = (Baseline[k-1] + c) * (1 + cashRate)`. -/
theorem baseline_irr_implied_contribution (r : RunDict) (rate : ℚ) (k : Nat)
    (hk1 : 1 ≤ k) (hk2 : k ≤ r.monthIndex.length - 1) (hrate : 1 + rate ≠ 0) :
    (baselineCashFlows r rate).getD k (0, 0) =
      (-(r.baseline.getD k 0 / (1 + rate) - r.baseline.getD (k - 1) 0), (k : ℚ) / 12)
  ∧ r.baseline.getD k 0 =
      (r.baseline.getD (k - 1) 0 +
        (r.baseline.getD k 0 / (1 + rate) - r.baseline.getD (k - 1) 0)) * (1 + rate) := by
  obtain ⟨j, rfl⟩ : ∃ j, k = j + 1 := ⟨k - 1, (Nat.succ_pred_eq_of_pos hk1).symm⟩
  constructor
  · rw [baselineFlows_entry r rate j (by omega)]
    simp only [Nat.add_sub_cancel, Prod.mk.injEq]
    refine ⟨trivial, by push_cast; ring⟩
  · rw [Nat.add_sub_cancel]
    field_simp
    ring

/-- Concrete instantiation of `baseline_irr_implied_contribution` at
month 1 of the demo run with a 1% cash rate. -/
theorem baseline_irr_implied_contribution_witness :
    (baselineCashFlows demoRun (1/100)).getD 1 (0, 0) =
      (-(demoRun.baseline.getD 1 0 / (1 + 1/100) - demoRun.baseline.getD 0 0),
        ((1 : Nat) : ℚ) / 12)
  ∧ demoRun.baseline.getD 1 0 =
      (demoRun.baseline.getD 0 0 +
        (demoRun.baseline.getD 1 0 / (1 + 1/100) - demoRun.baseline.getD 0 0)) *
        (1 + 1/100) := by
  have h := baseline_irr_implied_contribution demoRun (1/100) 1 (by norm_num)
    (by simp [demoRun]) (by norm_num)
  exact ⟨h.1, h.2⟩

/-- Claim C8: a Newton failure (thrown numerical error or the
100-iteration limit, the oracle's `error` case) makes `calculate_irr`
return the `nan` sentinel (`none`), and `calculate_all_irrs` simply
skips such runs in both aggregate arrays — every converged run still
contributes its IRR, and the batch never aborts. -/
theorem irr_nonconvergence_soft_failure (newton : List (ℚ × ℚ) → Except String ℚ)
    (contribution : Nat → ℚ) (rate : ℚ) (runs : List RunDict) :
    (calculate_all_irrs newton contribution rate runs).irr_returns =
      runs.filterMap
        (fun r => (calculate_irr newton (portfolioCashFlows contribution r)).map
          (fun x => x * 100))
  ∧ (calculate_all_irrs newton contribution rate runs).baseline_irr_returns =
      runs.filterMap
        (fun r => (calculate_irr newton (baselineCashFlows r rate)).map
          (fun x => x * 100))
  ∧ (∀ (flows : List (ℚ × ℚ)) (e : String), newton flows = Except.error e →
      calculate_irr newton flows = none) := by
  refine ⟨?_, ?_, ?_⟩
  · rw [calculate_all_irrs]
    exact (irrLoop_eq_filterMap newton (portfolioCashFlows contribution) runs []).trans
      (List.nil_append _)
  · rw [calculate_all_irrs]
    exact (irrLoop_eq_filterMap newton (fun r => baselineCashFlows r rate) runs []).trans
      (List.nil_append _)
  · intro flows e he
    simp [calculate_irr, he]

/-- Concrete instantiation of `irr_nonconvergence_soft_failure`: a
never-converging oracle yields the sentinel and an empty aggregate (the
run is skipped, not fatal), while an always-converging oracle still
produces the percentage IRR for the same run. -/
theorem irr_nonconvergence_soft_failure_witness :
    calculate_irr errNewton [] = none
  ∧ (calculate_all_irrs errNewton (fun _ => 10) (1/100) [demoRun]).irr_returns = []
  ∧ (calculate_all_irrs okNewton (fun _ => 10) (1/100) [demoRun]).irr_returns = [10] := by
  refine ⟨?_, ?_, ?_⟩
  · exact (irr_nonconvergence_soft_failure errNewton (fun _ => 10) 0 []).2.2 []
      "RuntimeError: Failed to converge after 100 iterations" rfl
  · rw [(irr_nonconvergence_soft_failure errNewton (fun _ => 10) (1/100) [demoRun]).1]
    simp [calculate_irr, errNewton]
  · rw [(irr_nonconvergence_soft_failure okNewton (fun _ => 10) (1/100) [demoRun]).1]
    simp [calculate_irr, okNewton]
    norm_num

/-- Claim C9: on a schedule sorted strictly ascending by start month,
the lookup returns the amount of the last period starting no later than
the month (the first period's amount when the month precedes every
start), any month strictly before the first start returns the first
period's amount, and a lookup exactly at a period's start month returns
that period's amount. -/
theorem contribution_lookup_spec (month : Nat) (periods : List Period)
    (hsort : periods.Pairwise (fun a b => a.start_month < b.start_month))
    (hne : periods ≠ []) :
    get_contribution_for_month month periods =
      ((periods.filter (fun q => q.start_month ≤ month)).map
        (fun q => q.contribution)).getLastD ((periods.headD ⟨0, 0⟩).contribution)
  ∧ (month < (periods.headD ⟨0, 0⟩).start_month →
      get_contribution_for_month month periods = (periods.headD ⟨0, 0⟩).contribution)
  ∧ (∀ q ∈ periods, q.start_month = month →
      get_contribution_for_month month periods = q.contribution) := by
  refine ⟨contribScan_eq_filter month periods hsort _, ?_, ?_⟩
  · intro hlt
    rw [get_contribution_for_month]
    apply contribScan_all_gt
    intro q hq
    cases periods with
    | nil => exact absurd rfl hne
    | cons b rest =>
      have hmb : month < b.start_month := by simpa using hlt
      rcases List.mem_cons.1 hq with rfl | hmem
      · exact hmb
      · have hb : b.start_month < q.start_month := (List.pairwise_cons.1 hsort).1 q hmem
        omega
  · intro q hq hqm
    rw [get_contribution_for_month]
    exact contribScan_exact month periods hsort _ q hq hqm

/-- Concrete instantiation of `contribution_lookup_spec`: looking up
month 12 in the demo schedule hits the period starting exactly at 12 and
returns its amount 200. -/
theorem contribution_lookup_spec_witness :
    get_contribution_for_month 12 demoPeriods =
      ((demoPeriods.filter (fun q => q.start_month ≤ 12)).map
        (fun q => q.contribution)).getLastD ((demoPeriods.headD ⟨0, 0⟩).contribution)
  ∧ get_contribution_for_month 12 demoPeriods = 200 := by
  have h := contribution_lookup_spec 12 demoPeriods (by decide) (by simp [demoPeriods])
  exact ⟨h.1, h.2.2 ⟨12, 200⟩ (by simp [demoPeriods]) rfl⟩

/-- Claim C10: the rebalancing update does not clamp to [0, 1] — with
balances 100/0/0/0 against an equal-quarters target and the default 5%
threshold, the updated mix's SP500 fraction is -1/4, so a positive
monthly contribution of 100 is split with a negative SP500 share. -/
theorem rebalancing_update_unclamped_negative_share :
    updateMix true (1/20) 3 100 0 0 0 ⟨1/4, 1/4, 1/4, 1/4⟩ ⟨1/4, 1/4, 1/4, 1/4⟩ =
      ⟨-(1/4), 5/12, 5/12, 5/12⟩
  ∧ (updateMix true (1/20) 3 100 0 0 0 ⟨1/4, 1/4, 1/4, 1/4⟩ ⟨1/4, 1/4, 1/4, 1/4⟩).sp500 < 0
  ∧ (100 : ℚ) *
      (updateMix true (1/20) 3 100 0 0 0 ⟨1/4, 1/4, 1/4, 1/4⟩ ⟨1/4, 1/4, 1/4, 1/4⟩).sp500
        < 0 := by
  have h : updateMix true (1/20) 3 100 0 0 0 ⟨1/4, 1/4, 1/4, 1/4⟩ ⟨1/4, 1/4, 1/4, 1/4⟩ =
      ⟨-(1/4), 5/12, 5/12, 5/12⟩ := by
    simp only [updateMix, currentAllocation, needsRebalancing, sumMix]
    norm_num [abs_le]
  refine ⟨h, by rw [h]; norm_num, by rw [h]; norm_num⟩
